import Mathlib

/-!
Verification development for `bot.py` of the yvrcovidplots repository: a
wastewater COVID-19 plot bot that fetches measurements, cleans them, renders a
chart, and publishes it to Twitter and Mastodon, guarded by a marker file that
stores the last published data timestamp.

The embedding below translates the relevant Python functions into Lean:
timestamps become an explicit `DateTime` structure (Python `datetime.datetime`
with whole-minute UTC offsets, the only kind the program ever produces);
pandas rows become a `Row` structure and dataframe filters become list
filters; exceptions become `Option` / `Except`; the external world (network
results, filesystem reads, font loading) is passed in as explicit parameters.
-/

/-- One measurement row of the fetched dataset, after the `__metadata` column
is dropped (`bot.py` line 70).  `note` is `none` when the upstream JSON has a
null / missing Note field (pandas NaN).  The numeric payload columns are kept
as integers; no claim depends on their arithmetic.  `calculatedDate` is the
parsed sample timestamp, in microseconds since the epoch. -/
structure Row where
  calculatedDate : Int
  plant : String
  value : Int
  dailyLoad : Int
  note : Option String
deriving DecidableEq

/-- `df = df[df.Note != "No sample collected"]` (`bot.py` line 71).  In pandas
a NaN note compares unequal to the string, so rows with a missing note are
retained. -/
def dropUnsampled (rows : List Row) : List Row :=
  rows.filter (fun r => r.note ≠ some "No sample collected")

/-- The replacement dictionary of `df.Plant.replace({...}, inplace=True)`
(`bot.py` lines 73-82), as an association list in source order. -/
def plantReplacements : List (String × String) :=
  [("Iona Island", "Iona Island WWTP (Vancouver)"),
   ("Annacis Island", "Annacis Island WWTP (Fraser area)"),
   ("Lulu Island", "Lulu Island WWTP (Richmond)"),
   ("Lions Gate", "Lions Gate WWTP (North Shore)"),
   ("Northwest Langley", "Northwest Langley WWTP")]

/-- `Series.replace` with a dictionary: a value equal to a key is replaced by
the mapped value, every other value passes through unchanged. -/
def replacePlant (s : String) : String :=
  match (plantReplacements.find? (fun p => p.1 == s)) with
  | some p => p.2
  | none => s

/-- Microseconds in one day, the unit of `calculatedDate`. -/
def dayMicros : Int := 86400 * 1000000

/-- `recent_data = df[df.CalculatedDate >= df.CalculatedDate.max() - dt.timedelta(days=60)]`
(`bot.py` lines 127-129).  On an empty frame the pandas comparison against NaT
is all-False, giving an empty result. -/
def recentData (rows : List Row) : List Row :=
  match (rows.map (fun r => r.calculatedDate)).max? with
  | none => []
  | some m => rows.filter (fun r => m - 60 * dayMicros ≤ r.calculatedDate)

/-- The maximum `CalculatedDate` of a dataset, with a junk default for the
empty frame (theorems about `recentData` assume a nonempty dataset). -/
def maxCalculatedDate (rows : List Row) : Int :=
  ((rows.map (fun r => r.calculatedDate)).max?).getD 0

/-- Result of font loading: either a truetype font from one of the candidate
paths at the requested size, or PIL's built-in default bitmap font. -/
inductive Font where
  | truetype (path : String) (size : Nat)
  | builtinDefault
deriving DecidableEq

/-- The ordered candidate font paths of `font` (`bot.py` lines 88-91). -/
def fontPaths : List String :=
  ["/usr/share/fonts/truetype/liberation/LiberationSans-Regular.ttf",
   "/System/Library/Fonts/Helvetica.ttc"]

/-- The `for f in fonts: try ... except: pass` loop of `font` (`bot.py` lines
92-97): `loads` says whether `ImageFont.truetype` succeeds on a path (an
exception is modelled as `false`); the first success is returned, and after
the loop `ImageFont.load_default()` is returned. -/
def fontLoop (loads : String → Bool) (size : Nat) : List String → Font
  | [] => Font.builtinDefault
  | p :: ps => if loads p then Font.truetype p size else fontLoop loads size ps

/-- `font(size)` (`bot.py` lines 87-97). -/
def font (loads : String → Bool) (size : Nat) : Font :=
  fontLoop loads size fontPaths

/-- A Python `datetime.datetime` value.  `offset` is the tzinfo's UTC offset
in minutes (`none` = a naive datetime); every tz the program produces
(`astimezone` to America/Vancouver, or `timezone` built by `fromisoformat`)
has a whole-minute offset strictly between -24h and +24h. -/
structure DateTime where
  year : Nat
  month : Nat
  day : Nat
  hour : Nat
  minute : Nat
  second : Nat
  micro : Nat
  offset : Option Int
deriving DecidableEq

/-- Whether a year is a Gregorian leap year (CPython `_is_leap`). -/
def isLeap (y : Nat) : Bool :=
  y % 4 == 0 && (y % 100 != 0 || y % 400 == 0)

/-- Days in a month (CPython `_days_in_month`). -/
def daysInMonth (y m : Nat) : Nat :=
  if m = 2 then (if isLeap y then 29 else 28)
  else if m = 4 ∨ m = 6 ∨ m = 9 ∨ m = 11 then 30 else 31

/-- `datetime` field invariants, enforced by the Python constructor. -/
def DateTime.Valid (t : DateTime) : Prop :=
  1 ≤ t.year ∧ t.year ≤ 9999 ∧ 1 ≤ t.month ∧ t.month ≤ 12 ∧
  1 ≤ t.day ∧ t.day ≤ daysInMonth t.year t.month ∧
  t.hour ≤ 23 ∧ t.minute ≤ 59 ∧ t.second ≤ 59 ∧
  t.micro ≤ 999999 ∧ (∀ o, t.offset = some o → o.natAbs ≤ 1439)

instance (t : DateTime) : Decidable t.Valid := by
  unfold DateTime.Valid
  have : Decidable (∀ o, t.offset = some o → o.natAbs ≤ 1439) := by
    rcases t.offset with _ | o
    · exact isTrue (by intro o h; cases h)
    · rcases Nat.decLe o.natAbs 1439 with h | h
      · exact isFalse (by intro hc; exact h (hc o rfl))
      · exact isTrue (by intro x hx; cases hx; exact h)
  exact instDecidableAnd

/-- Days before January 1 of year `y` (CPython `_days_before_year`). -/
def daysBeforeYear (y : Nat) : Nat :=
  let p := y - 1
  p * 365 + p / 4 - p / 100 + p / 400

/-- Days in year `y` before the first of month `m` (CPython
`_days_before_month`). -/
def daysBeforeMonth (y m : Nat) : Nat :=
  (List.range (m - 1)).foldl (fun acc i => acc + daysInMonth y (i + 1)) 0

/-- Proleptic-Gregorian ordinal of a date (CPython `_ymd2ord`): day 1 is
0001-01-01. -/
def toOrdinal (y m d : Nat) : Nat :=
  daysBeforeYear y + daysBeforeMonth y m + d

/-- The instant an aware datetime denotes, in microseconds since the epoch of
ordinal 0 in UTC.  Python compares and subtracts aware datetimes by exactly
this quantity.  For a naive datetime (`offset = none`, excluded by every
theorem that uses this) the offset falls back to 0. -/
def toInstant (t : DateTime) : Int :=
  ((toOrdinal t.year t.month t.day : Int) * 86400
      + (t.hour : Int) * 3600 + (t.minute : Int) * 60 + (t.second : Int)
      - (t.offset.getD 0) * 60) * 1000000 + (t.micro : Int)

/-- The wall-clock field tuple, used by Python to compare naive datetimes. -/
def wallTuple (t : DateTime) : Nat × Nat × Nat × Nat × Nat × Nat × Nat :=
  (t.year, t.month, t.day, t.hour, t.minute, t.second, t.micro)

/-- Python `a >= b` on datetimes: aware pairs compare by instant, naive pairs
by wall-clock fields, and a mixed pair raises `TypeError` (`.error`). -/
def pyGE (a b : DateTime) : Except Unit Bool :=
  match a.offset, b.offset with
  | some _, some _ => .ok (decide (toInstant b ≤ toInstant a))
  | none, none => .ok (decide (wallTuple b ≤ wallTuple a))
  | _, _ => .error ()

/-- Python `a - b` on datetimes, as a count of microseconds: defined for two
aware or two naive operands, raises `TypeError` (`.error`) on a mixed pair. -/
def pySub (a b : DateTime) : Except Unit Int :=
  match a.offset, b.offset with
  | some _, some _ => .ok (toInstant a - toInstant b)
  | none, none => .ok (toInstant a - toInstant b)
  | _, _ => .error ()

/-- The digit character for `d < 10`. -/
def dChar (d : Nat) : Char := Char.ofNat (48 + d)

/-- The value of a digit character. -/
def dVal (c : Char) : Nat := c.toNat - 48

/-- Whether a character is an ASCII decimal digit. -/
def isDig (c : Char) : Bool := 48 ≤ c.toNat && c.toNat ≤ 57

/-- `"%02d"` of a field known to be below 100. -/
def pad2 (n : Nat) : List Char := [dChar (n / 10), dChar (n % 10)]

/-- `"%04d"` of a field known to be below 10000. -/
def pad4 (n : Nat) : List Char :=
  [dChar (n / 1000), dChar (n / 100 % 10), dChar (n / 10 % 10), dChar (n % 10)]

/-- `"%06d"` of a field known to be below 1000000. -/
def pad6 (n : Nat) : List Char :=
  [dChar (n / 100000), dChar (n / 10000 % 10), dChar (n / 1000 % 10),
   dChar (n / 100 % 10), dChar (n / 10 % 10), dChar (n % 10)]

/-- The UTC-offset suffix of `datetime.isoformat()`: empty for a naive value,
`±HH:MM` for an aware one (the program never produces sub-minute offsets). -/
def isoOffsetChars (off : Option Int) : List Char :=
  match off with
  | none => []
  | some o =>
    (if o < 0 then '-' else '+') :: pad2 (o.natAbs / 60) ++ ':' :: pad2 (o.natAbs % 60)

/-- `datetime.isoformat()` as a character list:
`YYYY-MM-DDTHH:MM:SS[.ffffff][±HH:MM]`, the fraction present only when the
microsecond field is nonzero. -/
def isoformatChars (t : DateTime) : List Char :=
  pad4 t.year ++ '-' :: pad2 t.month ++ '-' :: pad2 t.day ++
    'T' :: pad2 t.hour ++ ':' :: pad2 t.minute ++ ':' :: pad2 t.second ++
    (if t.micro = 0 then [] else '.' :: pad6 t.micro) ++ isoOffsetChars t.offset

/-- `datetime.isoformat()` (`bot.py` line 288 writes this to the marker). -/
def isoformat (t : DateTime) : String := String.mk (isoformatChars t)

/-- Read a fixed run of two digit characters. -/
def read2 : List Char → Option (Nat × List Char)
  | c1 :: c2 :: rest =>
    if isDig c1 && isDig c2 then some (dVal c1 * 10 + dVal c2, rest) else none
  | _ => none

/-- Read a fixed run of three digit characters. -/
def read3 : List Char → Option (Nat × List Char)
  | c1 :: c2 :: c3 :: rest =>
    if isDig c1 && isDig c2 && isDig c3 then
      some (dVal c1 * 100 + dVal c2 * 10 + dVal c3, rest)
    else none
  | _ => none

/-- Read a fixed run of four digit characters. -/
def read4 : List Char → Option (Nat × List Char)
  | c1 :: c2 :: c3 :: c4 :: rest =>
    if isDig c1 && isDig c2 && isDig c3 && isDig c4 then
      some (dVal c1 * 1000 + dVal c2 * 100 + dVal c3 * 10 + dVal c4, rest)
    else none
  | _ => none

/-- Read a fixed run of six digit characters. -/
def read6 : List Char → Option (Nat × List Char)
  | c1 :: c2 :: c3 :: c4 :: c5 :: c6 :: rest =>
    if isDig c1 && isDig c2 && isDig c3 && isDig c4 && isDig c5 && isDig c6 then
      some (dVal c1 * 100000 + dVal c2 * 10000 + dVal c3 * 1000
              + dVal c4 * 100 + dVal c5 * 10 + dVal c6, rest)
    else none
  | _ => none

/-- The date prefix `YYYY-MM-DD` of `datetime.fromisoformat`, with the range
validation the `date` constructor performs. -/
def readDate (cs : List Char) : Option (Nat × Nat × Nat × List Char) :=
  match read4 cs with
  | none => none
  | some (y, cs) =>
    match cs with
    | [] => none
    | c1 :: cs =>
      if c1 = '-' then
        match read2 cs with
        | none => none
        | some (mo, cs) =>
          match cs with
          | [] => none
          | c2 :: cs =>
            if c2 = '-' then
              match read2 cs with
              | none => none
              | some (d, cs) =>
                if 1 ≤ y ∧ 1 ≤ mo ∧ mo ≤ 12 ∧ 1 ≤ d ∧ d ≤ daysInMonth y mo then
                  some (y, mo, d, cs)
                else none
            else none
      else none

/-- The optional fraction `.fff` or `.ffffff` after the seconds, returning a
microsecond count.  (CPython accepts exactly 3 or 6 fraction digits before
the end of the time part; a mismatch surfaces as leftover characters that
make the subsequent offset read fail.) -/
def readFraction (cs : List Char) : Option (Nat × List Char) :=
  match cs with
  | [] => some (0, [])
  | c :: rest =>
    if c = '.' then
      match read6 rest with
      | some (f, rest2) => some (f, rest2)
      | none =>
        match read3 rest with
        | some (f, rest2) => some (f * 1000, rest2)
        | none => none
    else some (0, c :: rest)

/-- The time part `HH[:MM[:SS[.fff[fff]]]]` of `datetime.fromisoformat`
(CPython `_parse_hh_mm_ss_ff`), with the range validation the `datetime`
constructor performs. -/
def readTime (cs : List Char) : Option (Nat × Nat × Nat × Nat × List Char) :=
  match read2 cs with
  | none => none
  | some (h, cs) =>
    if h ≤ 23 then
      match cs with
      | [] => some (h, 0, 0, 0, [])
      | c1 :: cs =>
        if c1 = ':' then
          match read2 cs with
          | none => none
          | some (mi, cs) =>
            if mi ≤ 59 then
              match cs with
              | [] => some (h, mi, 0, 0, [])
              | c2 :: cs2 =>
                if c2 = ':' then
                  match read2 cs2 with
                  | none => none
                  | some (s, cs3) =>
                    if s ≤ 59 then
                      match readFraction cs3 with
                      | none => none
                      | some (f, cs4) =>
                        if f ≤ 999999 then some (h, mi, s, f, cs4) else none
                    else none
                else some (h, mi, 0, 0, c2 :: cs2)
            else none
        else some (h, 0, 0, 0, c1 :: cs)
    else none

/-- The `HH:MM` body of a UTC offset, as a minute count; `timezone` only
validates that the total magnitude stays strictly below 24 hours. -/
def readOffTail (cs : List Char) : Option (Nat × List Char) :=
  match read2 cs with
  | none => none
  | some (th, cs) =>
    match cs with
    | [] => none
    | c :: rest =>
      if c = ':' then
        match read2 rest with
        | none => none
        | some (tm, cs2) =>
          if th * 60 + tm ≤ 1439 then some (th * 60 + tm, cs2) else none
      else none

/-- The optional trailing `±HH:MM` UTC offset of `datetime.fromisoformat`
(tz offsets with a seconds component never occur in this program and are not
modelled); the sign character picks the direction. -/
def readOffset (cs : List Char) : Option (Option Int × List Char) :=
  match cs with
  | [] => some (none, [])
  | c :: rest =>
    if c = '+' then
      match readOffTail rest with
      | none => none
      | some (m, cs2) => some (some ((m : Nat) : Int), cs2)
    else if c = '-' then
      match readOffTail rest with
      | none => none
      | some (m, cs2) => some (some (-((m : Nat) : Int)), cs2)
    else none

/-- `datetime.fromisoformat` (`bot.py` line 243) on the grammar
`YYYY-MM-DD[*HH[:MM[:SS[.fff[fff]]]][±HH:MM]]` accepted for output of
`isoformat` — `*` is an arbitrary one-character separator.  A string outside
the grammar or out of range yields `none` (Python: `ValueError`). -/
def fromisoformat (str : String) : Option DateTime :=
  match readDate str.data with
  | none => none
  | some (y, mo, d, rest) =>
    match rest with
    | [] => some ⟨y, mo, d, 0, 0, 0, 0, none⟩
    | _sep :: cs =>
      match readTime cs with
      | none => none
      | some (h, mi, s, f, cs) =>
        match readOffset cs with
        | none => none
        | some (off, cs) =>
          match cs with
          | [] => some ⟨y, mo, d, h, mi, s, f, off⟩
          | _ => none

/-- `dt.timedelta(minutes=30)` in microseconds. -/
def thirtyMinutesMicros : Int := 30 * 60 * 1000000

/-- The guard block of `main` (`bot.py` lines 241-251), for a configured
`last_run_file`.  `readResult` is the outcome of `last_run_file.read_text()`
(`none` = the read raised); `lastUpdated` is `data.last_updated`; `now` is
the value `dt.datetime.now(tz=TZ)` would produce.  The whole block sits in a
`try` whose bare `except` falls through to publishing, so any raising step —
read, parse, or a mixed naive/aware comparison — yields `true`.  Returns
`true` iff the run proceeds past the guard (publishes). -/
def pythonGuard (readResult : Option String) (lastUpdated now : DateTime) : Bool :=
  match readResult with
  | none => true
  | some text =>
    match fromisoformat text with
    | none => true
    | some lastRun =>
      match pyGE lastRun lastUpdated with
      | .error _ => true
      | .ok true => false
      | .ok false =>
        match pySub now lastUpdated with
        | .error _ => true
        | .ok d => if d < thirtyMinutesMicros then false else true

/-- Modelled from the spec: `should_publish(marker, snapshot_updated, now)`
(spec §4.3), over instants in microseconds.  Rules in order: no marker —
publish; marker ≥ snapshot — do not publish; data newer than 30 minutes —
do not publish; otherwise publish. -/
def shouldPublishSpec (marker : Option Int) (snapshotUpdated now : Int) : Bool :=
  match marker with
  | none => true
  | some m =>
    if snapshotUpdated ≤ m then false
    else if now - snapshotUpdated < thirtyMinutesMicros then false
    else true

/-- The marker instant the spec's `should_publish` receives: `none` when the
read or the parse failed, otherwise the parsed datetime's instant. -/
def markerInstant (readResult : Option String) : Option Int :=
  match readResult with
  | none => none
  | some text =>
    match fromisoformat text with
    | none => none
    | some t => some (toInstant t)

/-- `strftime("%b")`: abbreviated month names, C locale. -/
def monthAbbr (m : Nat) : String :=
  (["Jan", "Feb", "Mar", "Apr", "May", "Jun",
    "Jul", "Aug", "Sep", "Oct", "Nov", "Dec"].getD (m - 1) "")

/-- `strftime("%B")`: full month names, C locale. -/
def monthFull (m : Nat) : String :=
  (["January", "February", "March", "April", "May", "June", "July",
    "August", "September", "October", "November", "December"].getD (m - 1) "")

/-- `"%02d"` as a string, for `strftime("%M")`. -/
def pad2Str (n : Nat) : String := String.mk (pad2 n)

/-- The footer formatter `fmt` of `render_plot` (`bot.py` lines 176-180):
`month = ts.strftime("%b")`, `hour = (ts.hour % 12) or 12` (Python `or`
replaces a zero left operand), `tail = ts.strftime(":%M %p")` with `%p` being
`AM` before noon, then the f-string `f"{month} {ts.day}, {ts.year} {hour}{tail}"`
with unpadded `str` rendering of day, year and hour. -/
def fmt (ts : DateTime) : String :=
  monthAbbr ts.month ++ " " ++ toString ts.day ++ ", " ++ toString ts.year ++ " " ++
    toString (if ts.hour % 12 = 0 then 12 else ts.hour % 12) ++
    (":" ++ pad2Str ts.minute ++ " " ++ (if ts.hour < 12 then "AM" else "PM"))

/-- Modelled from the spec: the footer format
`"<abbreviated month> <day>, <year> <hour>:<minute> <AM/PM>"` on a 12-hour
clock — no leading zero on the day or the hour, hour 0 rendered as 12, hours
above 12 reduced by 12 (so 12 stays 12), two-digit minutes, `AM` strictly
before noon. -/
def fmtSpec (ts : DateTime) : String :=
  monthAbbr ts.month ++ " " ++ toString ts.day ++ ", " ++ toString ts.year ++
    " " ++
    toString (if ts.hour = 0 then 12 else if ts.hour ≤ 12 then ts.hour else ts.hour - 12) ++
    ":" ++ pad2Str ts.minute ++ " " ++ (if ts.hour < 12 then "AM" else "PM")

/-- The caption base text of `main` (`bot.py` lines 258-264), built from the
snapshot's `last_updated` and the newest sample date, each rendered as full
month name and unpadded day. -/
def captionBase (lastUpdated lastTest : DateTime) : String :=
  "Metro Vancouver wastewater COVID surveillance data was published " ++
    (monthFull lastUpdated.month ++ " " ++ toString lastUpdated.day) ++
    ". The most recent test was " ++
    (monthFull lastTest.month ++ " " ++ toString lastTest.day) ++ "."

/-- The caption handed to `do_tweet` (`bot.py` line 274). -/
def tweetText (lastUpdated lastTest : DateTime) : String :=
  captionBase lastUpdated lastTest ++ " @CovidPoops19"

/-- The caption handed to `do_toot` (`bot.py` line 282). -/
def tootText (lastUpdated lastTest : DateTime) : String :=
  captionBase lastUpdated lastTest ++ " #covid #covid19 #wastewater #vancouver #yvr"

/-- Observable outcome of the publishing section of `main`. -/
structure PublishOutcome where
  tweetAttempted : Bool
  tootAttempted : Bool
  responses : List String
  markerWritten : Option String
  raised : Bool
deriving DecidableEq

/-- The publishing section of `main` (`bot.py` lines 269-291): sequentially,
`do_tweet` if `tweet`, then `do_toot` if `toot`, then the marker write if
`(tweet or toot) and last_run_file`.  `tweetRes` / `tootRes` are the outcomes
the platform calls would have (`.error` = the call raises, e.g. a
`raise_for_status` on a failed post).  There is no `try` here: a raised
error propagates out of `main`, skipping everything after it. -/
def runPublishSection (tweet toot : Bool) (tweetRes tootRes : Except Unit String)
    (lastRunFile : Bool) (lastUpdated : DateTime) : PublishOutcome :=
  if tweet then
    match tweetRes with
    | .error _ =>
      { tweetAttempted := true, tootAttempted := false, responses := [],
        markerWritten := none, raised := true }
    | .ok r1 =>
      if toot then
        match tootRes with
        | .error _ =>
          { tweetAttempted := true, tootAttempted := true, responses := [r1],
            markerWritten := none, raised := true }
        | .ok r2 =>
          { tweetAttempted := true, tootAttempted := true, responses := [r1, r2],
            markerWritten := if lastRunFile then some (isoformat lastUpdated) else none,
            raised := false }
      else
        { tweetAttempted := true, tootAttempted := false, responses := [r1],
          markerWritten := if lastRunFile then some (isoformat lastUpdated) else none,
          raised := false }
  else
    if toot then
      match tootRes with
      | .error _ =>
        { tweetAttempted := false, tootAttempted := true, responses := [],
          markerWritten := none, raised := true }
      | .ok r2 =>
        { tweetAttempted := false, tootAttempted := true, responses := [r2],
          markerWritten := if lastRunFile then some (isoformat lastUpdated) else none,
          raised := false }
    else
      { tweetAttempted := false, tootAttempted := false, responses := [],
        markerWritten := none, raised := false }

/-- Whether an `Except` completed without raising. -/
def exceptOk (e : Except Unit String) : Bool :=
  match e with
  | .ok _ => true
  | .error _ => false

/-- A sample aware snapshot timestamp: 2024-03-05 09:05:00 at UTC-08:00. -/
def sampleAware : DateTime := ⟨2024, 3, 5, 9, 5, 0, 0, some (-480)⟩

/-- A sample `now` more than 30 minutes after `sampleAware`. -/
def sampleNow : DateTime := ⟨2024, 3, 5, 11, 10, 0, 0, some (-480)⟩

/-- A sample `now` less than 30 minutes after `sampleAware`. -/
def sampleSoon : DateTime := ⟨2024, 3, 5, 9, 10, 0, 0, some (-480)⟩

/-- A sample aware marker timestamp strictly older than `sampleAware`. -/
def sampleMarker : DateTime := ⟨2024, 3, 5, 8, 0, 0, 0, some (-480)⟩

/-- A sample naive timestamp (no UTC offset). -/
def sampleNaive : DateTime := ⟨2024, 3, 5, 9, 5, 0, 0, none⟩

/-- A sample measurement row. -/
def sampleRow : Row := ⟨0, "Iona Island", 1, 2, none⟩

theorem dChar_spec {d : Nat} (h : d < 10) : isDig (dChar d) = true ∧ dVal (dChar d) = d := by
  interval_cases d <;> exact ⟨by decide, by decide⟩

theorem read2_pad2 {n : Nat} (h : n < 100) (r : List Char) :
    read2 (pad2 n ++ r) = some (n, r) := by
  have h1 := dChar_spec (show n / 10 < 10 by omega)
  have h2 := dChar_spec (show n % 10 < 10 by omega)
  simp only [pad2, List.cons_append, List.nil_append, read2, h1.1, h2.1, h1.2, h2.2,
    Bool.and_self, if_true]
  have hn : n / 10 * 10 + n % 10 = n := by omega
  rw [hn]

theorem read2_pad2_nil {n : Nat} (h : n < 100) : read2 (pad2 n) = some (n, []) := by
  have h2 := read2_pad2 h []
  rwa [List.append_nil] at h2

theorem read4_pad4 {n : Nat} (h : n < 10000) (r : List Char) :
    read4 (pad4 n ++ r) = some (n, r) := by
  have h1 := dChar_spec (show n / 1000 < 10 by omega)
  have h2 := dChar_spec (show n / 100 % 10 < 10 by omega)
  have h3 := dChar_spec (show n / 10 % 10 < 10 by omega)
  have h4 := dChar_spec (show n % 10 < 10 by omega)
  simp only [pad4, List.cons_append, List.nil_append, read4, h1.1, h2.1, h3.1, h4.1,
    h1.2, h2.2, h3.2, h4.2, Bool.and_self, if_true]
  have hn : n / 1000 * 1000 + n / 100 % 10 * 100 + n / 10 % 10 * 10 + n % 10 = n := by omega
  rw [hn]

theorem read6_pad6 {n : Nat} (h : n < 1000000) (r : List Char) :
    read6 (pad6 n ++ r) = some (n, r) := by
  have h1 := dChar_spec (show n / 100000 < 10 by omega)
  have h2 := dChar_spec (show n / 10000 % 10 < 10 by omega)
  have h3 := dChar_spec (show n / 1000 % 10 < 10 by omega)
  have h4 := dChar_spec (show n / 100 % 10 < 10 by omega)
  have h5 := dChar_spec (show n / 10 % 10 < 10 by omega)
  have h6 := dChar_spec (show n % 10 < 10 by omega)
  simp only [pad6, List.cons_append, List.nil_append, read6, h1.1, h2.1, h3.1, h4.1,
    h5.1, h6.1, h1.2, h2.2, h3.2, h4.2, h5.2, h6.2, Bool.and_self, if_true]
  have hn : n / 100000 * 100000 + n / 10000 % 10 * 10000 + n / 1000 % 10 * 1000
      + n / 100 % 10 * 100 + n / 10 % 10 * 10 + n % 10 = n := by omega
  rw [hn]

theorem daysInMonth_le (y m : Nat) : daysInMonth y m ≤ 31 := by
  unfold daysInMonth
  split
  · split <;> omega
  · split <;> omega

theorem readDate_pad {y mo d : Nat} (hy1 : 1 ≤ y) (hy : y ≤ 9999) (hmo1 : 1 ≤ mo)
    (hmo : mo ≤ 12) (hd1 : 1 ≤ d) (hd : d ≤ daysInMonth y mo) (r : List Char) :
    readDate (pad4 y ++ ('-' :: (pad2 mo ++ ('-' :: (pad2 d ++ r))))) = some (y, mo, d, r) := by
  unfold readDate
  rw [read4_pad4 (show y < 10000 by omega)]
  simp only [read2_pad2 (show mo < 100 by omega),
    read2_pad2 (show d < 100 by have := daysInMonth_le y mo; omega)]
  rw [if_pos (show 1 ≤ y ∧ 1 ≤ mo ∧ mo ≤ 12 ∧ 1 ≤ d ∧ d ≤ daysInMonth y mo from
    ⟨hy1, hmo1, hmo, hd1, hd⟩)]
  simp only [if_true]

theorem readFraction_micro {f : Nat} (hf : f ≤ 999999) (r : List Char)
    (hr : ∀ c, r.head? = some c → c ≠ '.') :
    readFraction ((if f = 0 then [] else '.' :: pad6 f) ++ r) = some (f, r) := by
  by_cases hf0 : f = 0
  · subst hf0
    rw [if_pos rfl, List.nil_append]
    match r with
    | [] => rfl
    | c :: rest =>
      simp only [readFraction]
      rw [if_neg (hr c rfl)]
  · rw [if_neg hf0, List.cons_append]
    simp only [readFraction, read6_pad6 (show f < 1000000 by omega), if_true]

theorem readTime_pad {h mi s f : Nat} (hh : h ≤ 23) (hmi : mi ≤ 59) (hs : s ≤ 59)
    (hf : f ≤ 999999) (r : List Char) (hr : ∀ c, r.head? = some c → c ≠ '.') :
    readTime (pad2 h ++ (':' :: (pad2 mi ++ (':' :: (pad2 s ++
      ((if f = 0 then [] else '.' :: pad6 f) ++ r)))))) = some (h, mi, s, f, r) := by
  unfold readTime
  rw [read2_pad2 (show h < 100 by omega)]
  simp only [read2_pad2 (show mi < 100 by omega), read2_pad2 (show s < 100 by omega),
    readFraction_micro hf r hr, if_pos hh, if_pos hmi, if_pos hs, if_pos hf, if_true]

theorem readOffTail_pad {a : Nat} (ha : a ≤ 1439) :
    readOffTail (pad2 (a / 60) ++ (':' :: pad2 (a % 60))) = some (a, []) := by
  unfold readOffTail
  rw [read2_pad2 (show a / 60 < 100 by omega)]
  simp only [read2_pad2_nil (show a % 60 < 100 by omega), if_true]
  rw [if_pos (show a / 60 * 60 + a % 60 ≤ 1439 by omega)]
  have hx : a / 60 * 60 + a % 60 = a := by omega
  rw [hx]

theorem readOffset_iso {o : Option Int} (ho : ∀ x, o = some x → x.natAbs ≤ 1439) :
    readOffset (isoOffsetChars o) = some (o, []) := by
  match o with
  | none => rfl
  | some x =>
    have hb : x.natAbs ≤ 1439 := ho x rfl
    by_cases hneg : x < 0
    · simp only [isoOffsetChars, if_pos hneg, List.cons_append]
      simp only [readOffset, readOffTail_pad hb, if_true]
      have hx : -((x.natAbs : Nat) : Int) = x := by omega
      rw [hx, if_neg (show ¬('-' = '+') by decide)]
    · simp only [isoOffsetChars, if_neg hneg, List.cons_append]
      simp only [readOffset, readOffTail_pad hb, if_true]
      have hx : ((x.natAbs : Nat) : Int) = x := by omega
      rw [hx]

theorem isoOffsetChars_head (o : Option Int) :
    ∀ c, (isoOffsetChars o).head? = some c → c ≠ '.' := by
  match o with
  | none => intro c hc; cases hc
  | some x =>
    intro c hc
    simp only [isoOffsetChars, List.cons_append, List.head?] at hc
    by_cases hneg : x < 0
    · rw [if_pos hneg] at hc
      cases hc; decide
    · rw [if_neg hneg] at hc
      cases hc; decide

theorem fromisoformat_isoformat {t : DateTime} (hv : t.Valid) :
    fromisoformat (isoformat t) = some t := by
  obtain ⟨hy1, hy, hmo1, hmo, hd1, hd, hh, hmi, hs, hf, ho⟩ := hv
  unfold fromisoformat isoformat
  have hdata : (String.mk (isoformatChars t)).data = isoformatChars t := rfl
  rw [hdata]
  simp only [isoformatChars, List.append_assoc, List.cons_append]
  rw [readDate_pad hy1 hy hmo1 hmo hd1 hd]
  simp only [readTime_pad hh hmi hs hf _ (isoOffsetChars_head t.offset),
    readOffset_iso ho]

/-- C5: a row survives `df = df[df.Note != "No sample collected"]` exactly when
it was present and its Note is not the disqualifying string; rows with any
other note, including a missing note, are retained. -/
theorem mem_dropUnsampled (rows : List Row) (r : Row) :
    r ∈ dropUnsampled rows ↔ r ∈ rows ∧ r.note ≠ some "No sample collected" := by
  simp [dropUnsampled, List.mem_filter]

/-- C6: the plant remapping sends exactly the five known raw names to their
display names, and any name outside the replacement dictionary passes through
unchanged. -/
theorem replacePlant_exact :
    (replacePlant "Iona Island" = "Iona Island WWTP (Vancouver)" ∧
     replacePlant "Annacis Island" = "Annacis Island WWTP (Fraser area)" ∧
     replacePlant "Lulu Island" = "Lulu Island WWTP (Richmond)" ∧
     replacePlant "Lions Gate" = "Lions Gate WWTP (North Shore)" ∧
     replacePlant "Northwest Langley" = "Northwest Langley WWTP") ∧
    ∀ s, s ∉ plantReplacements.map Prod.fst → replacePlant s = s := by
  refine ⟨⟨by decide, by decide, by decide, by decide, by decide⟩, ?_⟩
  intro s hs
  unfold replacePlant
  have hfind : plantReplacements.find? (fun p => p.1 == s) = none := by
    rw [List.find?_eq_none]
    intro x hx
    simp only [Bool.not_eq_true, beq_eq_false_iff_ne, ne_eq]
    intro he
    exact hs (List.mem_map.mpr ⟨x, hx, he⟩)
  rw [hfind]

/-- C6 witness: one mapped name and one unknown name, evaluated concretely. -/
theorem replacePlant_exact_witness :
    replacePlant "Iona Island" = "Iona Island WWTP (Vancouver)" ∧
    replacePlant "Bowen Island" = "Bowen Island" :=
  ⟨replacePlant_exact.1.1, replacePlant_exact.2 "Bowen Island" (by decide)⟩

/-- C7: on a nonempty dataset, the recent panel keeps exactly the rows whose
`CalculatedDate` is at least the dataset's maximum `CalculatedDate` minus 60
days. -/
theorem mem_recentData (rows : List Row) (r : Row) (hne : rows ≠ []) :
    r ∈ recentData rows ↔
      r ∈ rows ∧ maxCalculatedDate rows - 60 * dayMicros ≤ r.calculatedDate := by
  unfold recentData maxCalculatedDate
  cases hm : (rows.map (fun r => r.calculatedDate)).max? with
  | none =>
    exact absurd (List.map_eq_nil_iff.mp (List.max?_eq_none_iff.mp hm)) hne
  | some m =>
    simp [List.mem_filter, hm]

/-- C7 witness: a singleton dataset, evaluated concretely. -/
theorem mem_recentData_witness :
    sampleRow ∈ recentData [sampleRow] ↔
      sampleRow ∈ [sampleRow] ∧
        maxCalculatedDate [sampleRow] - 60 * dayMicros ≤ sampleRow.calculatedDate :=
  mem_recentData [sampleRow] sampleRow (by decide)

/-- C8: `font` never fails: it returns the truetype font of the first
candidate path that loads, and the built-in default bitmap font when no
candidate loads. -/
theorem font_firstSuccessOrDefault (loads : String → Bool) (size : Nat) :
    font loads size = (match fontPaths.find? loads with
      | some p => Font.truetype p size
      | none => Font.builtinDefault) := by
  by_cases h1 : loads "/usr/share/fonts/truetype/liberation/LiberationSans-Regular.ttf" <;>
    by_cases h2 : loads "/System/Library/Fonts/Helvetica.ttc" <;>
    simp [font, fontPaths, fontLoop, List.find?, h1, h2]

/-- C10: both captions extend the same base text, the tweet caption with the
`@CovidPoops19` mention and the toot caption with the hashtag list, so the two
publishers never receive the same caption. -/
theorem captions_distinct (lu lt : DateTime) :
    tweetText lu lt = captionBase lu lt ++ " @CovidPoops19" ∧
    tootText lu lt = captionBase lu lt ++ " #covid #covid19 #wastewater #vancouver #yvr" ∧
    tweetText lu lt ≠ tootText lu lt := by
  refine ⟨rfl, rfl, ?_⟩
  intro he
  have hd := congrArg String.data he
  simp only [tweetText, tootText, String.data_append] at hd
  have hs := List.append_cancel_left hd
  exact absurd hs (by decide)

/-- C1: for a configured `last_run_file`, whenever the timestamps involved are
timezone-aware (as every timestamp this program itself produces is), the guard
block of `main` decides exactly as the spec's four ordered rules: missing,
unreadable or unparseable marker — publish; marker at or after the snapshot's
`last_updated` — return without publishing; snapshot newer than 30 minutes —
return without publishing; otherwise publish. -/
theorem pythonGuard_matches_shouldPublishSpec
    (readResult : Option String) (lu now : DateTime)
    (hlu : lu.offset.isSome) (hnow : now.offset.isSome)
    (hm : ∀ s t, readResult = some s → fromisoformat s = some t → t.offset.isSome) :
    pythonGuard readResult lu now
      = shouldPublishSpec (markerInstant readResult) (toInstant lu) (toInstant now) := by
  match readResult with
  | none => rfl
  | some text =>
    simp only [pythonGuard, markerInstant]
    cases hp : fromisoformat text with
    | none => rfl
    | some lastRun =>
      obtain ⟨olr, holr⟩ := Option.isSome_iff_exists.mp (hm text lastRun rfl hp)
      obtain ⟨olu, holu⟩ := Option.isSome_iff_exists.mp hlu
      obtain ⟨ono, hono⟩ := Option.isSome_iff_exists.mp hnow
      simp only [pyGE, pySub, holr, holu, hono, shouldPublishSpec]
      by_cases hge : toInstant lu ≤ toInstant lastRun <;>
        by_cases hlt : toInstant now - toInstant lu < thirtyMinutesMicros <;>
        simp [hge, hlt]

/-- C1 witness: an aware marker older than the snapshot, with `now` well past
the settling window, evaluated concretely. -/
theorem pythonGuard_matches_shouldPublishSpec_witness :
    pythonGuard (some (isoformat sampleMarker)) sampleAware sampleNow
      = shouldPublishSpec (markerInstant (some (isoformat sampleMarker)))
          (toInstant sampleAware) (toInstant sampleNow) :=
  pythonGuard_matches_shouldPublishSpec _ _ _ (by decide) (by decide)
    (by
      intro s t hs ht
      cases hs
      rw [show fromisoformat (isoformat sampleMarker) = some sampleMarker from by decide] at ht
      injection ht with h
      subst h
      decide)

/-- C2 counterexample: with both flags enabled, a raised error in `do_tweet`
propagates out of `main` before `do_toot` is ever attempted, contradicting the
claim that each publisher runs independently. -/
theorem runPublishSection_tweetFailure_cex :
    (runPublishSection true true (Except.error ()) (Except.ok "toot-url") true
        sampleAware).tootAttempted = false ∧
    (runPublishSection true true (Except.error ()) (Except.ok "toot-url") true
        sampleAware).raised = true :=
  ⟨rfl, rfl⟩

/-- C2 amended: `do_toot` is attempted exactly when its flag is enabled and,
if the tweet flag is also enabled, `do_tweet` completed without raising — a
`PublishError` raised by `do_tweet` aborts the run before `do_toot`. -/
theorem runPublishSection_tootAttempted (tweet toot : Bool)
    (tweetRes tootRes : Except Unit String) (lastRunFile : Bool) (lu : DateTime) :
    (runPublishSection tweet toot tweetRes tootRes lastRunFile lu).tootAttempted
      = (toot && (!tweet || exceptOk tweetRes)) := by
  cases tweet <;> cases toot <;> cases tweetRes <;> cases tootRes <;> rfl

/-- C3 counterexample: `do_tweet` succeeds (its response is collected) but a
raised error in `do_toot` aborts the run before the marker write, so a run in
which one enabled publisher succeeded ends with no marker written. -/
theorem markerNotWritten_cex :
    (runPublishSection true true (Except.ok "tweet-id") (Except.error ()) true
        sampleAware).responses = ["tweet-id"] ∧
    (runPublishSection true true (Except.ok "tweet-id") (Except.error ()) true
        sampleAware).markerWritten = none :=
  ⟨rfl, rfl⟩

/-- C3 amended: with `last_run_file` set, the marker is overwritten with
exactly `isoformat` of the snapshot's `last_updated` precisely when at least
one publisher flag is enabled and every enabled publisher succeeded (and never
otherwise); the written string parses back to an equal timestamp, and a
subsequent run reading it against an unchanged snapshot does not publish. -/
theorem markerWrite_roundTrip (tweet toot : Bool) (tweetRes tootRes : Except Unit String)
    (lu now : DateTime) (hv : lu.Valid) (hlu : lu.offset.isSome) :
    ((runPublishSection tweet toot tweetRes tootRes true lu).markerWritten
        = if (tweet || toot) && (!tweet || exceptOk tweetRes) && (!toot || exceptOk tootRes)
          then some (isoformat lu) else none) ∧
    fromisoformat (isoformat lu) = some lu ∧
    pythonGuard (some (isoformat lu)) lu now = false := by
  refine ⟨?_, fromisoformat_isoformat hv, ?_⟩
  · cases tweet <;> cases toot <;> cases tweetRes <;> cases tootRes <;> rfl
  · simp only [pythonGuard, fromisoformat_isoformat hv]
    obtain ⟨o, ho⟩ := Option.isSome_iff_exists.mp hlu
    simp [pyGE, ho]

/-- C3 witness: both publishers enabled and succeeding on a concrete aware
snapshot timestamp. -/
theorem markerWrite_roundTrip_witness :
    ((runPublishSection true true (Except.ok "id1") (Except.ok "id2") true
        sampleAware).markerWritten
        = if (true || true) && (!true || exceptOk (Except.ok "id1"))
              && (!true || exceptOk (Except.ok "id2"))
          then some (isoformat sampleAware) else none) ∧
    fromisoformat (isoformat sampleAware) = some sampleAware ∧
    pythonGuard (some (isoformat sampleAware)) sampleAware sampleNow = false :=
  markerWrite_roundTrip true true (Except.ok "id1") (Except.ok "id2") sampleAware sampleNow
    (by decide) (by decide)

/-- C4: the footer formatter of `render_plot` agrees with the spec's format —
abbreviated month, unpadded day, year, unpadded 12-hour clock hour with 0 and
12 both shown as 12, two-digit minutes, and AM/PM split at noon. -/
theorem fmt_matches_fmtSpec (ts : DateTime) (hv : ts.Valid) : fmt ts = fmtSpec ts := by
  obtain ⟨-, -, -, -, -, -, hh, -, -, -, -⟩ := hv
  unfold fmt fmtSpec
  have h1 : (if ts.hour % 12 = 0 then 12 else ts.hour % 12)
      = (if ts.hour = 0 then 12 else if ts.hour ≤ 12 then ts.hour else ts.hour - 12) := by
    split_ifs <;> omega
  rw [h1]
  simp [String.append_assoc]

/-- C4 witness: the claim's own example, `2024-03-05T09:05:00` formats to
`"Mar 5, 2024 9:05 AM"`. -/
theorem fmt_matches_fmtSpec_witness :
    fmt ⟨2024, 3, 5, 9, 5, 0, 0, none⟩ = fmtSpec ⟨2024, 3, 5, 9, 5, 0, 0, none⟩ ∧
    fmt ⟨2024, 3, 5, 9, 5, 0, 0, none⟩ = "Mar 5, 2024 9:05 AM" :=
  ⟨fmt_matches_fmtSpec ⟨2024, 3, 5, 9, 5, 0, 0, none⟩ (by decide), by decide⟩

/-- C9: the whole guard block sits in one `try` with a bare `except: pass`, so
any raising step — a failed file read, an unparseable marker, or a marker that
parses to a naive timestamp and makes the comparison with the aware snapshot
timestamp raise `TypeError` — sends the run to the publish path, skipping the
30-minute settling rule as well. -/
theorem pythonGuard_bareExcept :
    (∀ lu now : DateTime, pythonGuard none lu now = true) ∧
    (∀ (text : String) (lu now : DateTime), fromisoformat text = none →
        pythonGuard (some text) lu now = true) ∧
    (∀ (text : String) (t lu now : DateTime), fromisoformat text = some t →
        t.offset = none → lu.offset.isSome → pythonGuard (some text) lu now = true) := by
  refine ⟨fun lu now => rfl, ?_, ?_⟩
  · intro text lu now hp
    simp [pythonGuard, hp]
  · intro text t lu now hp hnaive hlu
    obtain ⟨o, ho⟩ := Option.isSome_iff_exists.mp hlu
    simp [pythonGuard, hp, pyGE, hnaive, ho]

/-- C9 witness: a naive marker equal in wall-clock terms to the snapshot, with
`now` inside the 30-minute window — the run still publishes. -/
theorem pythonGuard_bareExcept_witness :
    pythonGuard (some (isoformat sampleNaive)) sampleAware sampleSoon = true :=
  pythonGuard_bareExcept.2.2 (isoformat sampleNaive) sampleNaive sampleAware sampleSoon
    (by decide) (by decide) (by decide)
